import Mathlib

/-!
Verification of the MelaBabu photo-composition engine.

The TypeScript sources are shallowly embedded: JS `number` arithmetic is
modelled exactly over `ℚ` (all operations the engine performs on the
quantities below are exact in double precision at the granularity the
claims are stated, and the final per-channel store rounds to an integer),
trigonometry over `ℝ`, and fallible asynchronous code over `Except`.
`Math.round` is JS round-half-up, i.e. `⌊x + 1/2⌋`.
-/

namespace Melababu

/-- JS `Math.round`: round half up, `⌊x + 1/2⌋`. -/
def jsRound (x : ℚ) : ℤ := ⌊x + 1/2⌋

/-- JS `Math.max(0, Math.min(255, v))` applied to an integer channel value. -/
def clampByte (v : ℤ) : ℤ := max 0 (min 255 v)

/-- The four-scalar adjustment bundle (`AdjustValues` in `lib/store.ts`). -/
structure AdjustValues where
  brightness : ℚ
  contrast : ℚ
  vibrance : ℚ
  warmth : ℚ
deriving DecidableEq, Repr

/-- One RGBA pixel of an `ImageData` buffer; channels are byte values. -/
structure Pixel where
  r : ℤ
  g : ℤ
  b : ℤ
  a : ℤ
deriving DecidableEq, Repr

/-- A pixel whose channels are genuine byte values. -/
def Pixel.inRange (p : Pixel) : Prop :=
  0 ≤ p.r ∧ p.r ≤ 255 ∧ 0 ≤ p.g ∧ p.g ≤ 255 ∧ 0 ≤ p.b ∧ p.b ≤ 255

instance instPixelInRangeDecidable (p : Pixel) : Decidable p.inRange := by
  unfold Pixel.inRange
  exact inferInstance

/-- Contrast factor from `applyFiltersToImageData` (filters.ts line 78):
`contrast === 0 ? 1 : Math.max(0, (100 + contrast) / 100)`. -/
def contrastFactorOf (contrast : ℚ) : ℚ :=
  if contrast = 0 then 1 else max 0 ((100 + contrast) / 100)

/-- Per-pixel body of `applyFiltersToImageData` (filters.ts lines 80-115).
Fully transparent pixels are skipped; otherwise brightness, contrast,
vibrance (when nonzero) and warmth (when nonzero) are applied in that
order, then each channel is rounded and clamped to a byte.  The average
`avg` is hoisted out of the vibrance branch; it is only consumed there,
exactly as in the source. -/
def applyFiltersToPixel (values : AdjustValues) (p : Pixel) : Pixel :=
  if p.a = 0 then p
  else
    let contrastFactor := contrastFactorOf values.contrast
    let r1 : ℚ := (p.r : ℚ) + values.brightness * 255
    let g1 : ℚ := (p.g : ℚ) + values.brightness * 255
    let b1 : ℚ := (p.b : ℚ) + values.brightness * 255
    let r2 : ℚ := ((r1 / 255 - 0.5) * contrastFactor + 0.5) * 255
    let g2 : ℚ := ((g1 / 255 - 0.5) * contrastFactor + 0.5) * 255
    let b2 : ℚ := ((b1 / 255 - 0.5) * contrastFactor + 0.5) * 255
    let avg : ℚ := (r2 + g2 + b2) / 3
    let r3 : ℚ := if values.vibrance ≠ 0 then r2 + (r2 - avg) * values.vibrance else r2
    let g3 : ℚ := if values.vibrance ≠ 0 then g2 + (g2 - avg) * values.vibrance else g2
    let b3 : ℚ := if values.vibrance ≠ 0 then b2 + (b2 - avg) * values.vibrance else b2
    let r4 : ℚ := if values.warmth ≠ 0 then r3 * (1 + values.warmth * 0.05) else r3
    let b4 : ℚ := if values.warmth ≠ 0 then b3 * (1 - values.warmth * 0.05) else b3
    { r := clampByte (jsRound r4)
      g := clampByte (jsRound g3)
      b := clampByte (jsRound b4)
      a := p.a }

/-- `applyFiltersToImageData` over a whole RGBA buffer, viewed as the list
of its pixels (the source walks the flat array four bytes at a time). -/
def applyFiltersToImageData (values : AdjustValues) (data : List Pixel) : List Pixel :=
  data.map (applyFiltersToPixel values)

/-- The all-zero adjustment bundle (the "Original" preset). -/
def zeroAdjust : AdjustValues := ⟨0, 0, 0, 0⟩

/-- Modelled from the spec: step 1 of the mandated filter order —
brightness adds `brightness * 255` to each of R, G, B. -/
def brightnessStep (brightness : ℚ) (c : ℚ × ℚ × ℚ) : ℚ × ℚ × ℚ :=
  (c.1 + brightness * 255, c.2.1 + brightness * 255, c.2.2 + brightness * 255)

/-- Modelled from the spec: step 2 — contrast maps each channel
`v → ((v/255 − 0.5) * factor + 0.5) * 255`. -/
def contrastStep (contrast : ℚ) (c : ℚ × ℚ × ℚ) : ℚ × ℚ × ℚ :=
  let factor := contrastFactorOf contrast
  (((c.1 / 255 - 0.5) * factor + 0.5) * 255,
   ((c.2.1 / 255 - 0.5) * factor + 0.5) * 255,
   ((c.2.2 / 255 - 0.5) * factor + 0.5) * 255)

/-- Modelled from the spec: step 3 — vibrance, only when nonzero, moves
each channel away from the channel average. -/
def vibranceStep (vibrance : ℚ) (c : ℚ × ℚ × ℚ) : ℚ × ℚ × ℚ :=
  if vibrance = 0 then c
  else
    let avg := (c.1 + c.2.1 + c.2.2) / 3
    (c.1 + (c.1 - avg) * vibrance,
     c.2.1 + (c.2.1 - avg) * vibrance,
     c.2.2 + (c.2.2 - avg) * vibrance)

/-- Modelled from the spec: step 4 — warmth, only when nonzero, scales
red up and blue down, leaving green untouched. -/
def warmthStep (warmth : ℚ) (c : ℚ × ℚ × ℚ) : ℚ × ℚ × ℚ :=
  if warmth = 0 then c
  else (c.1 * (1 + warmth * 0.05), c.2.1, c.2.2 * (1 - warmth * 0.05))

/-- Modelled from the spec: step 5 — clamp each channel to [0,255] and
round half up. -/
def clampRoundStep (c : ℚ × ℚ × ℚ) : ℤ × ℤ × ℤ :=
  (clampByte (jsRound c.1), clampByte (jsRound c.2.1), clampByte (jsRound c.2.2))

/-- Modelled from the spec: the mandated order — brightness, then
contrast, then vibrance, then warmth, then clamp-and-round. -/
def specFilterPipeline (values : AdjustValues) (c : ℚ × ℚ × ℚ) : ℤ × ℤ × ℤ :=
  clampRoundStep (warmthStep values.warmth
    (vibranceStep values.vibrance
      (contrastStep values.contrast
        (brightnessStep values.brightness c))))

theorem jsRound_intCast (n : ℤ) : jsRound (n : ℚ) = n := by
  unfold jsRound
  rw [add_comm, Int.floor_add_int]
  norm_num

/-- Claim C3: the Adjustment Filter applies brightness, then contrast,
then vibrance, then warmth, in that fixed order, clamping to [0,255] and
rounding half up; in particular the pixel (200,100,50,255) with
brightness = 0.10 and the other three parameters zero maps to
(226,126,76) with alpha unchanged. -/
theorem filter_order_and_formula :
    (∀ (values : AdjustValues) (p : Pixel), p.a ≠ 0 →
      applyFiltersToPixel values p =
        { r := (specFilterPipeline values ((p.r : ℚ), (p.g : ℚ), (p.b : ℚ))).1
          g := (specFilterPipeline values ((p.r : ℚ), (p.g : ℚ), (p.b : ℚ))).2.1
          b := (specFilterPipeline values ((p.r : ℚ), (p.g : ℚ), (p.b : ℚ))).2.2
          a := p.a }) ∧
    applyFiltersToPixel ⟨1/10, 0, 0, 0⟩ ⟨200, 100, 50, 255⟩ = ⟨226, 126, 76, 255⟩ := by
  constructor
  · intro values p ha
    by_cases hv : values.vibrance = 0 <;> by_cases hw : values.warmth = 0 <;>
      simp [applyFiltersToPixel, specFilterPipeline, brightnessStep, contrastStep,
        vibranceStep, warmthStep, clampRoundStep, ha, hv, hw]
  · simp only [applyFiltersToPixel, contrastFactorOf, jsRound, clampByte]
    norm_num

/-- Witness for C3: the general order statement evaluated at the spec's
concrete pixel. -/
theorem filter_order_and_formula_witness :
    applyFiltersToPixel ⟨1/10, 0, 0, 0⟩ ⟨200, 100, 50, 255⟩ =
      { r := (specFilterPipeline ⟨1/10, 0, 0, 0⟩ (200, 100, 50)).1
        g := (specFilterPipeline ⟨1/10, 0, 0, 0⟩ (200, 100, 50)).2.1
        b := (specFilterPipeline ⟨1/10, 0, 0, 0⟩ (200, 100, 50)).2.2
        a := 255 } :=
  filter_order_and_formula.1 ⟨1/10, 0, 0, 0⟩ ⟨200, 100, 50, 255⟩ (by decide)

theorem applyFiltersToPixel_zero (p : Pixel) (h : p.inRange) :
    applyFiltersToPixel zeroAdjust p = p := by
  obtain ⟨hr0, hr1, hg0, hg1, hb0, hb1⟩ := h
  have key : ∀ v : ℤ, 0 ≤ v → v ≤ 255 →
      clampByte (jsRound (((((v : ℚ) + 0 * 255) / 255 - 0.5) * contrastFactorOf 0 + 0.5) * 255)) = v := by
    intro v h0 h255
    have hcf : contrastFactorOf 0 = 1 := by norm_num [contrastFactorOf]
    have harg : ((((v : ℚ) + 0 * 255) / 255 - 0.5) * contrastFactorOf 0 + 0.5) * 255 = (v : ℚ) := by
      rw [hcf]
      field_simp
      ring_nf
    rw [harg, jsRound_intCast]
    unfold clampByte
    omega
  obtain ⟨r, g, b, a⟩ := p
  simp only at hr0 hr1 hg0 hg1 hb0 hb1
  simp only [applyFiltersToPixel, zeroAdjust]
  split_ifs with h1 h2
  · rfl
  · exact absurd h2 (by norm_num)
  · rw [key r hr0 hr1, key g hg0 hg1, key b hb0 hb1]

/-- Claim C4: applying the Adjustment Filter with the all-zero bundle
leaves every pixel of the buffer byte-for-byte unchanged. -/
theorem zero_adjust_identity (data : List Pixel) (h : ∀ p ∈ data, p.inRange) :
    applyFiltersToImageData zeroAdjust data = data := by
  unfold applyFiltersToImageData
  induction data with
  | nil => rfl
  | cons p rest ih =>
      have hp : p.inRange := h p (List.mem_cons_self p rest)
      have hrest : ∀ q ∈ rest, q.inRange := fun q hq => h q (List.mem_cons_of_mem p hq)
      simp [applyFiltersToPixel_zero p hp, ih hrest]

/-- Witness for C4 at a concrete three-pixel buffer. -/
theorem zero_adjust_identity_witness :
    applyFiltersToImageData zeroAdjust
        [⟨200, 100, 50, 255⟩, ⟨7, 8, 9, 0⟩, ⟨0, 255, 3, 17⟩] =
      [⟨200, 100, 50, 255⟩, ⟨7, 8, 9, 0⟩, ⟨0, 255, 3, 17⟩] :=
  zero_adjust_identity _ (by decide)

/-- One decorative layer of a theme (`ThemeLayer` in `lib/theme/types.ts`).
The export renderer draws `url`, the preview stage `previewUrl`. -/
structure Layer where
  url : String
  previewUrl : String
  zIndex : ℤ
deriving DecidableEq, Repr

/-- Shadow configuration (`ThemeShadow` in `lib/theme/types.ts`). -/
structure ShadowConfig where
  enabled : Bool
  angle : ℚ
  distance : ℚ
  blur : ℚ
  opacity : ℚ
deriving DecidableEq, Repr

/-- Vertical anchor of the placement box. -/
inductive Anchor where
  | top
  | center
  | bottom
deriving DecidableEq, Repr

/-- Placement box (`ThemeBabyPlacement` in `lib/theme/types.ts`). -/
structure BabyPlacement where
  x : ℚ
  y : ℚ
  width : ℚ
  height : ℚ
  rotation : ℚ
  anchor : Anchor
deriving DecidableEq, Repr

/-- The core fields of a theme descriptor (`Theme` in
`lib/theme/types.ts`); identifiers, status and timestamps are glue and
carry no render semantics. -/
structure Theme where
  width : ℚ
  height : ℚ
  layers : List Layer
  babyZIndex : ℤ
  shadow : ShadowConfig
  babyPlacement : BabyPlacement
deriving DecidableEq, Repr

/-- Subject transform (`BabyTransform` in `lib/store.ts`). -/
structure BabyTransform where
  x : ℚ
  y : ℚ
  scaleX : ℚ
  scaleY : ℚ
  rotation : ℚ
deriving DecidableEq, Repr

/-- The legacy-percentage normalization at the top of
`calculateInitialPlacement` (placement.ts lines 182-186): if any of the
four box fields exceeds 1 all four are divided by 100. -/
def normalizedPlacement (bp : BabyPlacement) : BabyPlacement :=
  if 1 < bp.x ∨ 1 < bp.y ∨ 1 < bp.width ∨ 1 < bp.height then
    { bp with x := bp.x / 100, y := bp.y / 100, width := bp.width / 100, height := bp.height / 100 }
  else bp

/-- Body of `calculateInitialPlacement` after normalization (placement.ts
lines 188-226): box center and size in stage pixels, fit-scale, and
anchor-based positioning. -/
def placementCore (bp : BabyPlacement) (stageWidth stageHeight nW nH : ℚ) : BabyTransform :=
  let boxCenterX := bp.x * stageWidth + (bp.width * stageWidth) / 2
  let boxCenterY := bp.y * stageHeight + (bp.height * stageHeight) / 2
  let boxW := bp.width * stageWidth
  let boxH := bp.height * stageHeight
  let scaleToFit := min (boxW / nW) (boxH / nH)
  let fitWidth := nW * scaleToFit
  let fitHeight := nH * scaleToFit
  let pos : ℚ × ℚ :=
    match bp.anchor with
    | .top => (boxCenterX - fitWidth / 2, boxCenterY - boxH / 2)
    | .bottom => (boxCenterX - fitWidth / 2, boxCenterY + boxH / 2 - fitHeight)
    | .center => (boxCenterX - fitWidth / 2, boxCenterY - fitHeight / 2)
  { x := pos.1, y := pos.2, scaleX := scaleToFit, scaleY := scaleToFit, rotation := bp.rotation }

/-- `calculateInitialPlacement` (placement.ts lines 170-226). -/
def calculateInitialPlacement (theme : Theme)
    (stageWidth stageHeight babyNaturalWidth babyNaturalHeight : ℚ) : BabyTransform :=
  placementCore (normalizedPlacement theme.babyPlacement)
    stageWidth stageHeight babyNaturalWidth babyNaturalHeight

/-- A disabled default shadow, used by the concrete demo themes below. -/
def offShadow : ShadowConfig := ⟨false, 120, 20, 40, 28/100⟩

/-- Demo theme for the spec's fit-scale test: fractional box
{x:0.25, y:0.30, width:0.50, height:0.50}, center anchor, no rotation. -/
def fracBoxTheme : Theme :=
  { width := 800, height := 1200, layers := [], babyZIndex := 2, shadow := offShadow,
    babyPlacement := ⟨1/4, 3/10, 1/2, 1/2, 0, .center⟩ }

/-- Demo theme for the spec's legacy-percentage test: the same box
expressed as percentages {x:25, y:30, width:50, height:50}. -/
def legacyBoxTheme : Theme :=
  { width := 800, height := 1200, layers := [], babyZIndex := 2, shadow := offShadow,
    babyPlacement := ⟨25, 30, 50, 50, 0, .center⟩ }

/-- Claim C6: the fit-scale equals min(boxWidth/naturalWidth,
boxHeight/naturalHeight), applied identically to both axes; the concrete
box {0.25, 0.30, 0.50, 0.50} on a 400×600 stage with a 100×50 subject and
center anchor yields the transform {x:100, y:280, scaleX:2, scaleY:2,
rotation:0}. -/
theorem fit_scale_isotropic :
    (∀ (theme : Theme) (sw sh nw nh : ℚ),
      (calculateInitialPlacement theme sw sh nw nh).scaleX =
          min ((normalizedPlacement theme.babyPlacement).width * sw / nw)
              ((normalizedPlacement theme.babyPlacement).height * sh / nh) ∧
      (calculateInitialPlacement theme sw sh nw nh).scaleY =
          (calculateInitialPlacement theme sw sh nw nh).scaleX) ∧
    calculateInitialPlacement fracBoxTheme 400 600 100 50 = ⟨100, 280, 2, 2, 0⟩ := by
  constructor
  · intro theme sw sh nw nh
    cases hA : (normalizedPlacement theme.babyPlacement).anchor <;>
      simp [calculateInitialPlacement, placementCore, hA]
  · simp only [calculateInitialPlacement, fracBoxTheme, normalizedPlacement, placementCore]
    norm_num [min_def]

/-- Claim C7: when any placement-box field exceeds 1, all four fields are
divided by 100 before use, so the legacy percentage box {25,30,50,50}
yields the same transform as the fractional box {0.25,0.30,0.50,0.50}. -/
theorem legacy_percentage_normalization (theme : Theme) (sw sh nw nh : ℚ)
    (h : 1 < theme.babyPlacement.x ∨ 1 < theme.babyPlacement.y ∨
         1 < theme.babyPlacement.width ∨ 1 < theme.babyPlacement.height) :
    calculateInitialPlacement theme sw sh nw nh =
        placementCore
          { theme.babyPlacement with
              x := theme.babyPlacement.x / 100
              y := theme.babyPlacement.y / 100
              width := theme.babyPlacement.width / 100
              height := theme.babyPlacement.height / 100 }
          sw sh nw nh ∧
      calculateInitialPlacement legacyBoxTheme 400 600 100 50 =
        calculateInitialPlacement fracBoxTheme 400 600 100 50 := by
  constructor
  · unfold calculateInitialPlacement normalizedPlacement
    rw [if_pos h]
  · simp only [calculateInitialPlacement, legacyBoxTheme, fracBoxTheme, normalizedPlacement,
      placementCore]
    norm_num

/-- Witness for C7: both conjuncts at the spec's concrete legacy box. -/
theorem legacy_percentage_normalization_witness :
    calculateInitialPlacement legacyBoxTheme 400 600 100 50 =
        placementCore
          { legacyBoxTheme.babyPlacement with
              x := legacyBoxTheme.babyPlacement.x / 100
              y := legacyBoxTheme.babyPlacement.y / 100
              width := legacyBoxTheme.babyPlacement.width / 100
              height := legacyBoxTheme.babyPlacement.height / 100 }
          400 600 100 50 ∧
      calculateInitialPlacement legacyBoxTheme 400 600 100 50 =
        calculateInitialPlacement fracBoxTheme 400 600 100 50 :=
  legacy_percentage_normalization legacyBoxTheme 400 600 100 50 (by norm_num [legacyBoxTheme])

/-- The compositor's render mode. -/
inductive RenderMode where
  | preview
  | export
deriving DecidableEq, Repr

/-- Export resolution cap (exportRenderer.ts line 34). -/
def MAX_EXPORT_DIMENSION : ℚ := 2048

/-- Preview resolution cap (exportRenderer.ts line 35). -/
def maxPreview : ℚ := 1200

/-- Scale factor selection in `renderToCanvas` (exportRenderer.ts lines
37-43). -/
def scaleFactorOf (mode : RenderMode) (w h : ℚ) : ℚ :=
  match mode with
  | .export => min 1 (MAX_EXPORT_DIMENSION / max w h)
  | .preview =>
      let maxDim := max w h
      if maxDim ≤ maxPreview then 1 else maxPreview / maxDim

/-- `outWidth = Math.round(theme.width * scaleFactor)` (line 45). -/
def outputWidth (mode : RenderMode) (w h : ℚ) : ℤ := jsRound (w * scaleFactorOf mode w h)

/-- `outHeight = Math.round(theme.height * scaleFactor)` (line 46). -/
def outputHeight (mode : RenderMode) (w h : ℚ) : ℤ := jsRound (h * scaleFactorOf mode w h)

/-- Modelled from the spec: the per-mode resolution cap. -/
def capOf : RenderMode → ℚ
  | .preview => maxPreview
  | .export => MAX_EXPORT_DIMENSION

/-- Claim C5: both scale factors are min(1, cap / max(w,h)) with the
export cap (2048) strictly larger than the preview cap, and output
dimensions are round(native * scaleFactor) on both axes; in particular a
native 3000×4000 theme in export mode gets scaleFactor 0.512 and output
1536×2048. -/
theorem resolution_policy (mode : RenderMode) (w h : ℚ) (hpos : 0 < max w h) :
    (scaleFactorOf mode w h = min 1 (capOf mode / max w h) ∧
     outputWidth mode w h = jsRound (w * min 1 (capOf mode / max w h)) ∧
     outputHeight mode w h = jsRound (h * min 1 (capOf mode / max w h)) ∧
     capOf RenderMode.preview < capOf RenderMode.export) ∧
    (scaleFactorOf RenderMode.export 3000 4000 = 512/1000 ∧
     outputWidth RenderMode.export 3000 4000 = 1536 ∧
     outputHeight RenderMode.export 3000 4000 = 2048) := by
  have hfactor : scaleFactorOf mode w h = min 1 (capOf mode / max w h) := by
    cases mode
    · simp only [scaleFactorOf, capOf]
      by_cases hle : max w h ≤ maxPreview
      · rw [if_pos hle, eq_comm, min_eq_left]
        exact (one_le_div hpos).mpr hle
      · rw [if_neg hle, eq_comm, min_eq_right]
        exact (div_le_one hpos).mpr (le_of_not_le hle)
    · rfl
  refine ⟨⟨hfactor, ?_, ?_, ?_⟩, ?_, ?_, ?_⟩
  · rw [outputWidth, hfactor]
  · rw [outputHeight, hfactor]
  · norm_num [capOf, maxPreview, MAX_EXPORT_DIMENSION]
  · norm_num [scaleFactorOf, MAX_EXPORT_DIMENSION, max_def, min_def]
  · norm_num [outputWidth, scaleFactorOf, MAX_EXPORT_DIMENSION, max_def, min_def, jsRound,
      Int.floor_eq_iff]
  · norm_num [outputHeight, scaleFactorOf, MAX_EXPORT_DIMENSION, max_def, min_def, jsRound,
      Int.floor_eq_iff]

/-- Witness for C5 at the spec's 3000×4000 export example. -/
theorem resolution_policy_witness :
    (scaleFactorOf RenderMode.export 3000 4000 =
        min 1 (capOf RenderMode.export / max 3000 4000) ∧
     outputWidth RenderMode.export 3000 4000 =
        jsRound (3000 * min 1 (capOf RenderMode.export / max 3000 4000)) ∧
     outputHeight RenderMode.export 3000 4000 =
        jsRound (4000 * min 1 (capOf RenderMode.export / max 3000 4000)) ∧
     capOf RenderMode.preview < capOf RenderMode.export) ∧
    (scaleFactorOf RenderMode.export 3000 4000 = 512/1000 ∧
     outputWidth RenderMode.export 3000 4000 = 1536 ∧
     outputHeight RenderMode.export 3000 4000 = 2048) :=
  resolution_policy RenderMode.export 3000 4000 (by norm_num)

/-- Result of `calculateShadowOffset` (`ShadowOffset` in shadow.ts). -/
structure ShadowOffset where
  offsetX : ℝ
  offsetY : ℝ
  blur : ℝ
  opacity : ℝ

/-- `calculateShadowOffset` (shadow.ts lines 17-30): disabled shadows get
all-zero output, enabled shadows get the polar-to-cartesian offset from
the angle in degrees and the distance. -/
noncomputable def calculateShadowOffset (shadow : ShadowConfig) : ShadowOffset :=
  if shadow.enabled then
    let angleRad : ℝ := (shadow.angle : ℝ) * Real.pi / 180
    { offsetX := Real.cos angleRad * (shadow.distance : ℝ)
      offsetY := Real.sin angleRad * (shadow.distance : ℝ)
      blur := (shadow.blur : ℝ)
      opacity := (shadow.opacity : ℝ) }
  else { offsetX := 0, offsetY := 0, blur := 0, opacity := 0 }

/-- Claim C8: enabled shadows have offsetX = cos(angle_rad)·distance and
offsetY = sin(angle_rad)·distance — at angle 120°, distance 20 this is
within 0.01 of (−10, 17.32) — while a disabled shadow has offset, blur
and opacity all exactly zero whatever the angle and distance. -/
theorem shadow_offset_policy :
    (∀ s : ShadowConfig, s.enabled = false → calculateShadowOffset s = ⟨0, 0, 0, 0⟩) ∧
    (∀ s : ShadowConfig, s.enabled = true →
      calculateShadowOffset s =
        ⟨Real.cos ((s.angle : ℝ) * Real.pi / 180) * (s.distance : ℝ),
         Real.sin ((s.angle : ℝ) * Real.pi / 180) * (s.distance : ℝ),
         (s.blur : ℝ), (s.opacity : ℝ)⟩) ∧
    (∀ s : ShadowConfig, s.enabled = true → s.angle = 120 → s.distance = 20 →
      |(calculateShadowOffset s).offsetX - (-10)| ≤ 1/100 ∧
      |(calculateShadowOffset s).offsetY - 1732/100| ≤ 1/100) := by
  refine ⟨fun s h => by simp [calculateShadowOffset, h],
          fun s h => by simp [calculateShadowOffset, h], fun s h ha hd => ?_⟩
  have hrw : (120 : ℝ) * Real.pi / 180 = Real.pi - Real.pi / 3 := by ring
  have hcos : Real.cos ((120 : ℝ) * Real.pi / 180) = -(1/2) := by
    rw [hrw, Real.cos_pi_sub, Real.cos_pi_div_three]
  have hsin : Real.sin ((120 : ℝ) * Real.pi / 180) = Real.sqrt 3 / 2 := by
    rw [hrw, Real.sin_pi_sub, Real.sin_pi_div_three]
  have hsq : Real.sqrt 3 ^ 2 = 3 := Real.sq_sqrt (by norm_num)
  have hnn : 0 ≤ Real.sqrt 3 := Real.sqrt_nonneg 3
  simp only [calculateShadowOffset, h, if_true, ha, hd]
  push_cast
  rw [hcos, hsin]
  constructor
  · rw [abs_le]
    constructor <;> norm_num
  · rw [abs_le]
    constructor <;> nlinarith [hsq, hnn]

/-- Enabled variant of the demo shadow configuration. -/
def onShadow : ShadowConfig := ⟨true, 120, 20, 40, 28/100⟩

/-- Witness for C8: all three conjuncts at concrete configurations. -/
theorem shadow_offset_policy_witness :
    calculateShadowOffset offShadow = ⟨0, 0, 0, 0⟩ ∧
    calculateShadowOffset onShadow =
      ⟨Real.cos (((120 : ℚ) : ℝ) * Real.pi / 180) * ((20 : ℚ) : ℝ),
       Real.sin (((120 : ℚ) : ℝ) * Real.pi / 180) * ((20 : ℚ) : ℝ),
       ((40 : ℚ) : ℝ), ((28/100 : ℚ) : ℝ)⟩ ∧
    |(calculateShadowOffset onShadow).offsetX - (-10)| ≤ 1/100 ∧
    |(calculateShadowOffset onShadow).offsetY - 1732/100| ≤ 1/100 :=
  ⟨shadow_offset_policy.1 offShadow rfl,
   shadow_offset_policy.2.1 onShadow rfl,
   shadow_offset_policy.2.2 onShadow rfl rfl rfl⟩

/-- Stroke recording projection (CanvasStage.tsx, `handleMaskPointerMove`):
a stage-space pointer sample is translated by the negative subject
position, rotated by the negative rotation, and divided by the scale, to
yield the native-space point that is stored in the stroke. -/
noncomputable def recordPointNative (t : BabyTransform) (pos : ℝ × ℝ) : ℝ × ℝ :=
  let dx := pos.1 - (t.x : ℝ)
  let dy := pos.2 - (t.y : ℝ)
  let c := Real.cos (-(t.rotation : ℝ) * Real.pi / 180)
  let s := Real.sin (-(t.rotation : ℝ) * Real.pi / 180)
  let rx := dx * c - dy * s
  let ry := dx * s + dy * c
  (rx / (t.scaleX : ℝ), ry / (t.scaleY : ℝ))

/-- Stored brush radius (CanvasStage.tsx, `handleMaskPointerUp`):
`maskBrushSize / babyTransform.scaleX`, i.e. native-space size. -/
def recordBrushNative (t : BabyTransform) (brushSize : ℚ) : ℚ := brushSize / t.scaleX

/-- Replay-side point mapping inside `applyMaskToImage` (exportRenderer.ts
lines 190-228): each STORED stroke point is translated by the negative
subject position, rotated by the negative rotation and divided by the
scale of the transform current at render time, before being painted onto
the native buffer. -/
noncomputable def replayStrokePoint (t : BabyTransform) (p : ℝ × ℝ) : ℝ × ℝ :=
  let dx := p.1 - (t.x : ℝ)
  let dy := p.2 - (t.y : ℝ)
  let c := Real.cos (-(t.rotation : ℝ) * Real.pi / 180)
  let s := Real.sin (-(t.rotation : ℝ) * Real.pi / 180)
  let rx := dx * c - dy * s
  let ry := dx * s + dy * c
  (rx / (t.scaleX : ℝ), ry / (t.scaleY : ℝ))

/-- Replay-side brush width (exportRenderer.ts line 195): the stored
brush size is divided by the render-time `transform.scaleX` again. -/
def replayBrush (t : BabyTransform) (brushSize : ℚ) : ℚ := brushSize / t.scaleX

/-- Claim C2 is refuted by the code: a stroke point recorded as (10,20)
in native space under the identity-like transform T1 = {0,0,1,1,0}, then
replayed while the transform is T2 = {5,7,2,2,0}, is painted at native
(2.5, 6.5), not at the stored native point, and the stored brush radius 8
is divided by scaleX again to 4 — the compositor's replay re-projects
instead of applying stored values directly. -/
theorem mask_replay_reprojects :
    recordPointNative ⟨0, 0, 1, 1, 0⟩ (10, 20) = (10, 20) ∧
    recordBrushNative ⟨0, 0, 1, 1, 0⟩ 8 = 8 ∧
    replayStrokePoint ⟨5, 7, 2, 2, 0⟩ (10, 20) = (5/2, 13/2) ∧
    replayStrokePoint ⟨5, 7, 2, 2, 0⟩ (10, 20) ≠ (10, 20) ∧
    replayBrush ⟨5, 7, 2, 2, 0⟩ 8 = 4 ∧ (4 : ℚ) ≠ 8 := by
  have hz : ∀ q : ℝ, -(((0 : ℚ) : ℝ)) * Real.pi / 180 = 0 := by
    intro _
    push_cast
    ring
  refine ⟨?_, by norm_num [recordBrushNative], ?_, ?_, by norm_num [replayBrush], by norm_num⟩
  · simp only [recordPointNative, hz 0, Real.cos_zero, Real.sin_zero]
    push_cast
    norm_num
  · simp only [replayStrokePoint, hz 0, Real.cos_zero, Real.sin_zero]
    push_cast
    norm_num
  · simp only [replayStrokePoint, hz 0, Real.cos_zero, Real.sin_zero, ne_eq, Prod.mk.injEq]
    push_cast
    norm_num

/-- Paint mode of a mask stroke. -/
inductive MaskMode where
  | erase
  | restore
deriving DecidableEq, Repr

/-- A recorded mask stroke (`MaskStroke` in `lib/store.ts`): a flat list
of point coordinates, a brush size, and a paint mode. -/
structure MaskStroke where
  points : List ℚ
  brushSize : ℚ
  type : MaskMode
deriving DecidableEq, Repr

/-- Canvas / image values flowing through `renderToCanvas`, as symbolic
terms: `src` is a loaded image, `maskApplied` the canvas produced by
`applyMaskToImage` (whose per-point arithmetic is `replayStrokePoint` and
`replayBrush` above), `filtered` the canvas produced by the pixel filter
(whose per-pixel arithmetic is `applyFiltersToPixel` above), and
`silhouette` the black shadow canvas of `createShadowCanvas`. -/
inductive Img where
  | src (url : String)
  | maskApplied (base : Img) (strokes : List MaskStroke) (t : BabyTransform)
  | filtered (base : Img) (values : AdjustValues)
  | silhouette (base : Img)
deriving DecidableEq, Repr

/-- One drawing command of the flattened frame, in issue order. -/
inductive DrawOp where
  | layerDraw (img : Img) (w h : ℤ)
  | shadowDraw (sil : Img) (opacity blur : ℚ) (tx ty : ℝ) (rotation scaleX scaleY : ℚ)
  | babyDraw (img : Img) (tx ty scaleX scaleY rotation : ℚ)
  | watermark (w : ℤ)

/-- `loadImage` (exportRenderer.ts lines 273-281): resolves with the
image, or rejects with `Failed to load image: url`.  The environment
`env` says which urls load successfully. -/
def loadImage (env : String → Bool) (url : String) : Except String Img :=
  if env url then .ok (.src url) else .error ("Failed to load image: " ++ url)

/-- Stable insertion into a zIndex-sorted list (helper for `sortByZ`). -/
def insertByZ (l : Layer) : List Layer → List Layer
  | [] => [l]
  | x :: xs => if l.zIndex ≤ x.zIndex then l :: x :: xs else x :: insertByZ l xs

/-- `[...theme.layers].sort((a, b) => a.zIndex - b.zIndex)` — a stable
ascending sort by zIndex, modelled as insertion sort. -/
def sortByZ : List Layer → List Layer
  | [] => []
  | x :: xs => insertByZ x (sortByZ xs)

theorem mem_insertByZ {a l : Layer} {ls : List Layer} :
    a ∈ insertByZ l ls ↔ a = l ∨ a ∈ ls := by
  induction ls with
  | nil => simp [insertByZ]
  | cons x xs ih =>
      simp only [insertByZ]
      split_ifs
      · simp
      · simp [ih]
        tauto

theorem mem_sortByZ {a : Layer} {ls : List Layer} : a ∈ sortByZ ls ↔ a ∈ ls := by
  induction ls with
  | nil => simp [sortByZ]
  | cons x xs ih => simp [sortByZ, mem_insertByZ, ih]

/-- Export-compositor partition, below-subject half (exportRenderer.ts
lines 63-64): strictly smaller zIndex than the subject's. -/
def belowLayers (theme : Theme) : List Layer :=
  (sortByZ theme.layers).filter (fun l => l.zIndex < theme.babyZIndex)

/-- Export-compositor partition, above-subject half (line 65): strictly
larger zIndex than the subject's. -/
def aboveLayers (theme : Theme) : List Layer :=
  (sortByZ theme.layers).filter (fun l => theme.babyZIndex < l.zIndex)

/-- Preview-stage partition, below-subject half (CanvasStage.tsx line
383), textually identical to the compositor's. -/
def stageBelowLayers (theme : Theme) : List Layer :=
  (sortByZ theme.layers).filter (fun l => l.zIndex < theme.babyZIndex)

/-- Preview-stage partition, above-subject half (CanvasStage.tsx line
384). -/
def stageAboveLayers (theme : Theme) : List Layer :=
  (sortByZ theme.layers).filter (fun l => theme.babyZIndex < l.zIndex)

/-- One of the two sequential layer-drawing loops of `renderToCanvas`
(exportRenderer.ts lines 68-71 and 131-134): each layer image is awaited
and drawn stretched to the output dimensions; a rejected load aborts the
loop with that error. -/
def drawLayerOps (env : String → Bool) (w h : ℤ) : List Layer → Except String (List DrawOp)
  | [] => .ok []
  | layer :: rest =>
    match loadImage env layer.url with
    | .error e => .error e
    | .ok img =>
      match drawLayerOps env w h rest with
      | .error e => .error e
      | .ok ops => .ok (.layerDraw img w h :: ops)

/-- `applyMaskToImage` at the canvas level: replays the stroke list onto
a copy of the subject image (per-point math in `replayStrokePoint`). -/
def applyMaskToImage (babyImg : Img) (strokes : List MaskStroke) (t : BabyTransform) : Img :=
  .maskApplied babyImg strokes t

/-- `applyFiltersToCanvas` (exportRenderer.ts lines 149-172): draws the
source to a fresh canvas and runs `applyFiltersToImageData` on it unless
all four values are zero, in which case the pixels are untouched. -/
def applyFiltersToCanvas (source : Img) (values : AdjustValues) : Img :=
  if values.brightness ≠ 0 ∨ values.contrast ≠ 0 ∨ values.vibrance ≠ 0 ∨ values.warmth ≠ 0
  then .filtered source values
  else source

/-- `RenderConfig` (exportRenderer.ts lines 7-16). -/
structure RenderConfig where
  theme : Theme
  babyImageUrl : String
  babyTransform : BabyTransform
  adjustValues : AdjustValues
  maskStrokes : List MaskStroke
  mode : RenderMode
  stageWidth : Option ℚ
  stageHeight : Option ℚ

/-- `renderToCanvas` (exportRenderer.ts lines 30-143).  Each `await` on a
rejecting promise is an early `.error` return; the produced frame is the
ordered list of draw commands.  `config.stageWidth || outWidth` treats a
zero stage width as absent, like the JS `||`. -/
noncomputable def renderToCanvas (env : String → Bool) (config : RenderConfig) :
    Except String (List DrawOp) :=
  let theme := config.theme
  let outWidth : ℤ := outputWidth config.mode theme.width theme.height
  let outHeight : ℤ := outputHeight config.mode theme.width theme.height
  let stageWidth : ℚ :=
    match config.stageWidth with
    | some s => if s = 0 then (outWidth : ℚ) else s
    | none => (outWidth : ℚ)
  let upscale : ℚ := (outWidth : ℚ) / stageWidth
  match drawLayerOps env outWidth outHeight (belowLayers theme) with
  | .error e => .error e
  | .ok belowOps =>
    match loadImage env config.babyImageUrl with
    | .error e => .error e
    | .ok babyImg =>
      let maskedBaby : Img :=
        if 0 < config.maskStrokes.length
        then applyMaskToImage babyImg config.maskStrokes config.babyTransform
        else babyImg
      let filteredBaby := applyFiltersToCanvas maskedBaby config.adjustValues
      let shadowOps : List DrawOp :=
        if theme.shadow.enabled then
          let so := calculateShadowOffset theme.shadow
          [.shadowDraw (.silhouette filteredBaby) theme.shadow.opacity theme.shadow.blur
            (((config.babyTransform.x * upscale : ℚ) : ℝ) + so.offsetX * ((upscale : ℚ) : ℝ))
            (((config.babyTransform.y * upscale : ℚ) : ℝ) + so.offsetY * ((upscale : ℚ) : ℝ))
            config.babyTransform.rotation
            (config.babyTransform.scaleX * upscale) (config.babyTransform.scaleY * upscale)]
        else []
      match drawLayerOps env outWidth outHeight (aboveLayers theme) with
      | .error e => .error e
      | .ok aboveOps =>
        let wmOps : List DrawOp :=
          if config.mode = RenderMode.export then [.watermark outWidth] else []
        .ok (belowOps ++ shadowOps ++
          [.babyDraw filteredBaby (config.babyTransform.x * upscale)
            (config.babyTransform.y * upscale) (config.babyTransform.scaleX * upscale)
            (config.babyTransform.scaleY * upscale) config.babyTransform.rotation] ++
          aboveOps ++ wmOps)

theorem drawLayerOps_error (env : String → Bool) (w h : ℤ) (layers : List Layer) (l : Layer)
    (hmem : l ∈ layers) (hfail : env l.url = false) :
    ∃ msg, drawLayerOps env w h layers = .error msg := by
  induction layers with
  | nil => cases hmem
  | cons a rest ih =>
      by_cases ha : env a.url = true
      · have hl : l ∈ rest := by
          rcases List.mem_cons.mp hmem with he | hr
          · rw [he, ha] at hfail
            cases hfail
          · exact hr
        obtain ⟨m, hm⟩ := ih hl
        exact ⟨m, by simp [drawLayerOps, loadImage, ha, hm]⟩
      · exact ⟨"Failed to load image: " ++ a.url,
          by simp [drawLayerOps, loadImage, ha]⟩

/-- Claim C1, as the code behaves (amended): if any decorative layer
drawn by the compositor (zIndex different from the subject's) fails to
load, `renderToCanvas` rejects with an error — the whole render aborts
instead of skipping the layer. -/
theorem layer_failure_aborts (env : String → Bool) (config : RenderConfig) (l : Layer)
    (hmem : l ∈ config.theme.layers) (hz : l.zIndex ≠ config.theme.babyZIndex)
    (hfail : env l.url = false) :
    ∃ msg, renderToCanvas env config = .error msg := by
  simp only [renderToCanvas]
  rcases lt_or_gt_of_ne hz with hlt | hgt
  · have hbelow : l ∈ belowLayers config.theme :=
      List.mem_filter.mpr ⟨mem_sortByZ.mpr hmem, by simpa using hlt⟩
    obtain ⟨m, hm⟩ := drawLayerOps_error env
      (outputWidth config.mode config.theme.width config.theme.height)
      (outputHeight config.mode config.theme.width config.theme.height)
      (belowLayers config.theme) l hbelow hfail
    exact ⟨m, by rw [hm]⟩
  · have habove : l ∈ aboveLayers config.theme :=
      List.mem_filter.mpr ⟨mem_sortByZ.mpr hmem, by simpa using hgt⟩
    obtain ⟨m, hm⟩ := drawLayerOps_error env
      (outputWidth config.mode config.theme.width config.theme.height)
      (outputHeight config.mode config.theme.width config.theme.height)
      (aboveLayers config.theme) l habove hfail
    cases hbe : drawLayerOps env
        (outputWidth config.mode config.theme.width config.theme.height)
        (outputHeight config.mode config.theme.width config.theme.height)
        (belowLayers config.theme) with
    | error e => exact ⟨e, rfl⟩
    | ok belowOps =>
        cases hba : loadImage env config.babyImageUrl with
        | error e => exact ⟨e, rfl⟩
        | ok babyImg => exact ⟨m, by rw [hm]⟩

/-- Background layer of the failing-layer demo. -/
def bgLayer : Layer := ⟨"bg.png", "bg.png", 1⟩

/-- Foreground layer of the failing-layer demo; its image will fail to
load. -/
def topLayer : Layer := ⟨"top.png", "top.png", 3⟩

/-- Demo theme with one layer below and one above the subject. -/
def twoLayerTheme : Theme :=
  { width := 1000, height := 800, layers := [bgLayer, topLayer], babyZIndex := 2,
    shadow := offShadow, babyPlacement := ⟨1/4, 3/10, 1/2, 1/2, 0, .center⟩ }

/-- An image environment where exactly `top.png` fails to load. -/
def failTopEnv : String → Bool := fun url => !(url == "top.png")

/-- Render request used by the failing-layer demo. -/
def failTopConfig : RenderConfig :=
  { theme := twoLayerTheme, babyImageUrl := "baby.png",
    babyTransform := ⟨0, 0, 1, 1, 0⟩, adjustValues := zeroAdjust,
    maskStrokes := [], mode := RenderMode.preview,
    stageWidth := none, stageHeight := none }

/-- Counterexample to claim C1 as stated: with one decorative layer
failing to load, `renderToCanvas` does not return any complete flattened
frame — it rejects with the layer's load error. -/
theorem layer_failure_not_skipped :
    renderToCanvas failTopEnv failTopConfig = .error "Failed to load image: top.png" ∧
    ∀ frame, renderToCanvas failTopEnv failTopConfig ≠ .ok frame := by
  have h : renderToCanvas failTopEnv failTopConfig = .error "Failed to load image: top.png" := by
    simp [renderToCanvas, failTopConfig, failTopEnv, twoLayerTheme, belowLayers, aboveLayers,
      sortByZ, insertByZ, bgLayer, topLayer, drawLayerOps, loadImage]
  refine ⟨h, fun frame hc => ?_⟩
  rw [h] at hc
  cases hc

/-- Witness for the amended C1 at the demo input. -/
theorem layer_failure_aborts_witness :
    ∃ msg, renderToCanvas failTopEnv failTopConfig = .error msg :=
  layer_failure_aborts failTopEnv failTopConfig topLayer (by decide) (by decide) (by decide)

/-- Claim C10: a layer whose zIndex equals the subject's `babyZIndex`
falls in neither half of the strict partitions used by the export
compositor and the preview stage, so it is drawn by neither. -/
theorem equal_zindex_layer_dropped (theme : Theme) (l : Layer)
    (h : l.zIndex = theme.babyZIndex) :
    l ∉ belowLayers theme ∧ l ∉ aboveLayers theme ∧
    l ∉ stageBelowLayers theme ∧ l ∉ stageAboveLayers theme := by
  refine ⟨fun hmem => ?_, fun hmem => ?_, fun hmem => ?_, fun hmem => ?_⟩ <;>
    first
      | exact absurd ((List.mem_filter.mp hmem).2) (by simp [h])

/-- A layer sharing the subject's z-order. -/
def midLayer : Layer := ⟨"mid.png", "mid.png", 2⟩

/-- Demo theme containing a layer exactly at `babyZIndex`. -/
def equalZTheme : Theme :=
  { width := 1000, height := 800, layers := [bgLayer, midLayer, topLayer], babyZIndex := 2,
    shadow := offShadow, babyPlacement := ⟨1/4, 3/10, 1/2, 1/2, 0, .center⟩ }

/-- Witness for C10 at the demo theme. -/
theorem equal_zindex_layer_dropped_witness :
    midLayer ∉ belowLayers equalZTheme ∧ midLayer ∉ aboveLayers equalZTheme ∧
    midLayer ∉ stageBelowLayers equalZTheme ∧ midLayer ∉ stageAboveLayers equalZTheme :=
  equal_zindex_layer_dropped equalZTheme midLayer (by decide)

/-- A pixel surface with an alpha channel, standing for the masked
working canvas handed to `cropTransparentSpace`; `alpha x y` is the byte
`data[(y*w + x)*4 + 3]`. -/
structure SourceCanvas where
  width : ℕ
  height : ℕ
  alpha : ℕ → ℕ → ℕ

/-- The alpha threshold fixed inside `cropTransparentSpace`
(backgroundRemoval.ts line 253). -/
def THRESHOLD : ℕ := 5

/-- Bounding-box scan state of the loop in lines 255-269. -/
structure ScanState where
  found : Bool
  minX : ℕ
  minY : ℕ
  maxX : ℕ
  maxY : ℕ
deriving DecidableEq, Repr

/-- One pixel visit of the scan loop (lines 258-269): a pixel whose alpha
exceeds the threshold extends the bounding box and sets `found`. -/
def scanStep (alpha : ℕ → ℕ → ℕ) (s : ScanState) (p : ℕ × ℕ) : ScanState :=
  if THRESHOLD < alpha p.1 p.2 then
    { found := true
      minX := min s.minX p.1
      minY := min s.minY p.2
      maxX := max s.maxX p.1
      maxY := max s.maxY p.2 }
  else s

/-- Row-major list of all pixel coordinates, the iteration order of the
nested `for` loops. -/
def coordList (w h : ℕ) : List (ℕ × ℕ) :=
  (List.range h).flatMap (fun y => (List.range w).map (fun x => (x, y)))

/-- The double scan loop, started from `minX = w, minY = h, maxX = 0,
maxY = 0` with nothing found. -/
def scanPixels (c : SourceCanvas) : ScanState :=
  (coordList c.width c.height).foldl (scanStep c.alpha) ⟨false, c.width, c.height, 0, 0⟩

/-- The rectangular region of the source canvas that the returned canvas
copies. -/
structure CropRect where
  x : ℤ
  y : ℤ
  width : ℤ
  height : ℤ
deriving DecidableEq, Repr

/-- `cropTransparentSpace` (backgroundRemoval.ts lines 243-290), as the
region of the source copied into the returned canvas: when no pixel
exceeds the threshold the source canvas itself — the full region — is
returned unchanged; otherwise the tight bounding box expanded by the
padding and clamped to the canvas bounds. -/
def cropTransparentSpace (c : SourceCanvas) (padding : ℕ) : CropRect :=
  let s := scanPixels c
  if s.found then
    let minX : ℤ := max 0 ((s.minX : ℤ) - (padding : ℤ))
    let minY : ℤ := max 0 ((s.minY : ℤ) - (padding : ℤ))
    let maxX : ℤ := min ((c.width : ℤ) - 1) ((s.maxX : ℤ) + (padding : ℤ))
    let maxY : ℤ := min ((c.height : ℤ) - 1) ((s.maxY : ℤ) + (padding : ℤ))
    ⟨minX, minY, maxX - minX + 1, maxY - minY + 1⟩
  else ⟨0, 0, (c.width : ℤ), (c.height : ℤ)⟩

theorem mem_coordList {w h : ℕ} {p : ℕ × ℕ} (hp : p ∈ coordList w h) :
    p.1 < w ∧ p.2 < h := by
  simp only [coordList, List.mem_flatMap, List.mem_map, List.mem_range] at hp
  obtain ⟨y, hy, x, hx, he⟩ := hp
  rw [← he]
  exact ⟨hx, hy⟩

theorem scan_foldl_bounds (alpha : ℕ → ℕ → ℕ) (w h : ℕ) (pts : List (ℕ × ℕ))
    (hpts : ∀ p ∈ pts, p.1 < w ∧ p.2 < h) (s0 : ScanState)
    (h0 : (s0.found = false → s0 = ⟨false, w, h, 0, 0⟩) ∧
          (s0.found = true →
            s0.minX ≤ s0.maxX ∧ s0.maxX < w ∧ s0.minY ≤ s0.maxY ∧ s0.maxY < h)) :
    ((pts.foldl (scanStep alpha) s0).found = false →
        pts.foldl (scanStep alpha) s0 = ⟨false, w, h, 0, 0⟩) ∧
    ((pts.foldl (scanStep alpha) s0).found = true →
        (pts.foldl (scanStep alpha) s0).minX ≤ (pts.foldl (scanStep alpha) s0).maxX ∧
        (pts.foldl (scanStep alpha) s0).maxX < w ∧
        (pts.foldl (scanStep alpha) s0).minY ≤ (pts.foldl (scanStep alpha) s0).maxY ∧
        (pts.foldl (scanStep alpha) s0).maxY < h) := by
  induction pts generalizing s0 with
  | nil => exact h0
  | cons p rest ih =>
      simp only [List.foldl_cons]
      apply ih (fun q hq => hpts q (List.mem_cons_of_mem p hq))
      have hp := hpts p (List.mem_cons_self p rest)
      by_cases ht : THRESHOLD < alpha p.1 p.2
      · constructor
        · intro hfalse
          simp [scanStep, ht] at hfalse
        · intro _
          rcases h0 with ⟨hini, hbnd⟩
          cases hsf : s0.found
          · rw [hini hsf]
            simp only [scanStep, ht, if_true]
            omega
          · have hb := hbnd hsf
            simp only [scanStep, ht, if_true]
            omega
      · simp only [scanStep, ht, if_false]
        exact h0

theorem scanPixels_bounds (c : SourceCanvas) :
    ((scanPixels c).found = false →
        scanPixels c = ⟨false, c.width, c.height, 0, 0⟩) ∧
    ((scanPixels c).found = true →
        (scanPixels c).minX ≤ (scanPixels c).maxX ∧ (scanPixels c).maxX < c.width ∧
        (scanPixels c).minY ≤ (scanPixels c).maxY ∧ (scanPixels c).maxY < c.height) :=
  scan_foldl_bounds c.alpha c.width c.height (coordList c.width c.height)
    (fun _ hp => mem_coordList hp) ⟨false, c.width, c.height, 0, 0⟩
    ⟨fun _ => rfl, fun hcontra => nomatch hcontra⟩

theorem scanPixels_no_find (c : SourceCanvas)
    (h : ∀ x y, x < c.width → y < c.height → c.alpha x y ≤ THRESHOLD) :
    scanPixels c = ⟨false, c.width, c.height, 0, 0⟩ := by
  unfold scanPixels
  have key : ∀ pts : List (ℕ × ℕ), (∀ p ∈ pts, c.alpha p.1 p.2 ≤ THRESHOLD) →
      pts.foldl (scanStep c.alpha) ⟨false, c.width, c.height, 0, 0⟩ =
        ⟨false, c.width, c.height, 0, 0⟩ := by
    intro pts
    induction pts with
    | nil => intro _; rfl
    | cons p rest ih =>
        intro hall
        have hp := hall p (List.mem_cons_self p rest)
        simp only [List.foldl_cons, scanStep, not_lt.mpr hp, if_false]
        exact ih (fun q hq => hall q (List.mem_cons_of_mem p hq))
  apply key
  intro p hp
  obtain ⟨h1, h2⟩ := mem_coordList hp
  exact h p.1 p.2 h1 h2

/-- Claim C9: the crop region (after padding expansion) always lies
entirely within the working image's bounds, is a genuine region when
anything was found, and when no pixel's alpha exceeds the threshold the
uncropped working image — the full region — is returned unchanged. -/
theorem crop_region_safe (c : SourceCanvas) (padding : ℕ) :
    (0 ≤ (cropTransparentSpace c padding).x ∧
     (cropTransparentSpace c padding).x + (cropTransparentSpace c padding).width ≤ (c.width : ℤ) ∧
     0 ≤ (cropTransparentSpace c padding).y ∧
     (cropTransparentSpace c padding).y + (cropTransparentSpace c padding).height ≤ (c.height : ℤ)) ∧
    ((scanPixels c).found = true →
      0 < (cropTransparentSpace c padding).width ∧
      0 < (cropTransparentSpace c padding).height) ∧
    ((∀ x y, x < c.width → y < c.height → c.alpha x y ≤ THRESHOLD) →
      cropTransparentSpace c padding = ⟨0, 0, (c.width : ℤ), (c.height : ℤ)⟩) := by
  refine ⟨?_, ?_, ?_⟩
  · by_cases hf : (scanPixels c).found
    · have hb := (scanPixels_bounds c).2 hf
      simp only [cropTransparentSpace, hf, if_true]
      omega
    · simp only [cropTransparentSpace, hf, Bool.false_eq_true, if_false]
      omega
  · intro hf
    have hb := (scanPixels_bounds c).2 hf
    simp only [cropTransparentSpace, hf, if_true]
    omega
  · intro h
    have hs := scanPixels_no_find c h
    simp only [cropTransparentSpace, hs, Bool.false_eq_true, if_false]

/-- Demo canvas that is fully transparent. -/
def clearCanvas : SourceCanvas := ⟨4, 3, fun _ _ => 0⟩

/-- Demo canvas with a single opaque pixel at (1,1). -/
def dotCanvas : SourceCanvas := ⟨4, 3, fun x y => if x = 1 ∧ y = 1 then 255 else 0⟩

/-- Witness for C9 at concrete canvases: the transparent one comes back
whole, the one-dot one yields a genuine in-bounds region. -/
theorem crop_region_safe_witness :
    cropTransparentSpace clearCanvas 5 = ⟨0, 0, 4, 3⟩ ∧
    (0 < (cropTransparentSpace dotCanvas 5).width ∧
     0 < (cropTransparentSpace dotCanvas 5).height) ∧
    0 ≤ (cropTransparentSpace dotCanvas 5).x :=
  ⟨(crop_region_safe clearCanvas 5).2.2 (fun _ _ _ _ => Nat.zero_le THRESHOLD),
   (crop_region_safe dotCanvas 5).2.1 (by decide),
   (crop_region_safe dotCanvas 5).1.1⟩

end Melababu
